import Mathlib

/-!
Verification development for the chart-export pipeline of
CosmoSave-Graficos (src/graficos.js).

The JavaScript source is shallowly embedded: each remote call is modelled
by its observable effect (a pure state transition, an oracle bit for
success/failure, or an abstract scheduling step), numeric page/element
geometry is modelled over the rationals, and the retry loop is modelled as
a fuel-bounded recursion whose randomness (jitter) is an explicit input
sequence.
-/

namespace CosmoSave

/-! ## Retry policy (graficos.js lines 54-66)

`withRetry(tag, fn)` is modelled by `withRetry tag op jitter`, where
`op i` is the outcome of the i-th invocation of `fn` (1-based, as in the
JS loop `for (let i = 1; i <= MAX_RETRIES; i++)`) and `jitter i` stands
for `Math.floor(Math.random() * 300)` drawn before the sleep that follows
attempt `i`.  The trace records the value returned or error thrown, the
number of invocations of `fn`, and the sequence of sleep durations. -/

structure RetryTrace (α : Type) where
  result : Except String α
  calls : Nat
  sleeps : List Nat

def MAX_RETRIES : Nat := 5

/-- One pass of the JS retry loop: `rem` is the number of attempts left
(`MAX_RETRIES - i + 1`), `wait` the current backoff.  On failure with
attempts remaining it sleeps `wait + jitter i` and doubles `wait` capped
at 8000, exactly as lines 60-63 of graficos.js. -/
def retryLoop (tag : String) (op : Nat → Except String α) (jitter : Nat → Nat)
    (i wait rem : Nat) : RetryTrace α :=
  match rem with
  | 0 => ⟨Except.error tag, 0, []⟩
  | rem' + 1 =>
    match op i with
    | Except.ok a => ⟨Except.ok a, 1, []⟩
    | Except.error msg =>
      if rem' = 0 then
        ⟨Except.error (tag ++ ": " ++ msg), 1, []⟩
      else
        let t := retryLoop tag op jitter (i + 1) (min (wait * 2) 8000) rem'
        ⟨t.result, t.calls + 1, (wait + jitter i) :: t.sleeps⟩

/-- `withRetry` of graficos.js line 55: starting wait 700, up to
`MAX_RETRIES` attempts. -/
def withRetry (tag : String) (op : Nat → Except String α) (jitter : Nat → Nat) :
    RetryTrace α :=
  retryLoop tag op jitter 1 700 MAX_RETRIES

/-! ## Fit transform (graficos.js lines 181-188)

The geometry of `insertChartAndFit` over exact rationals.  `margin` is the
local `margin = MARGIN_PT` (0 in the deployed constant, kept as a
parameter since lines 182-188 are parametric in it). -/

structure FitTransform where
  scaleX : ℚ
  scaleY : ℚ
  translateX : ℚ
  translateY : ℚ
deriving Repr, DecidableEq

def computeFit (elemW elemH pgW pgH margin : ℚ) : FitTransform :=
  let targetW := pgW - 2 * margin
  let targetH := pgH - 2 * margin
  let sX := targetW / elemW
  let sY := targetH / elemH
  ⟨sX, sY, (pgW - elemW * sX) / 2, (pgH - elemH * sY) / 2⟩

/-- JavaScript `x || d` on an optional numeric field: `undefined`, `0`
(and `NaN`, which has no rational counterpart) are falsy and give the
default `d`; any other number passes through — including negative ones.
Models `elem?.size?.width?.magnitude || 100` (line 178) and
`pres.data.pageSize?.width?.magnitude || 960` (line 125). -/
def jsOr (x : Option ℚ) (d : ℚ) : ℚ :=
  match x with
  | none => d
  | some v => if v = 0 then d else v

/-- The fit transform as computed from raw service responses: element
measurement defaults to 100 per axis (line 178-179), page size defaults
to 960×540 (lines 125-126), margin is `MARGIN_PT = 0` (line 52). -/
def fitFromResponse (eW eH pW pH : Option ℚ) : FitTransform :=
  computeFit (jsOr eW 100) (jsOr eH 100) (jsOr pW 960) (jsOr pH 540) 0

/-! ## Filename sanitization (graficos.js lines 287-288) -/

def bannedChars : List Char := ['\\', '/', ':', '*', '?', '"', '<', '>', '|']

def sanitizeChar (c : Char) : Char := if c ∈ bannedChars then '_' else c

/-- `.replace(/[\\/:*?"<>|]/g, '_').slice(0, 80)` : replace every banned
character by an underscore, then keep the first 80 characters. -/
def sanitizeTitle (t : String) : String :=
  String.mk ((t.data.map sanitizeChar).take 80)

/-- `(c.title || `Grafico_${idx}`)` then sanitization (line 287); the
empty string is the only falsy string, so an untitled chart gets the
synthesized name before sanitization. `idx` is the 1-based index. -/
def chartFileTitle (rawTitle : String) (idx : Nat) : String :=
  sanitizeTitle (if rawTitle = "" then "Grafico_" ++ toString idx else rawTitle)

/-- Line 288: `${tienda}__${title}__${DATE_STR}.pdf`. -/
def chartFileName (tienda rawTitle : String) (idx : Nat) (dateStr : String) : String :=
  tienda ++ "__" ++ chartFileTitle rawTitle idx ++ "__" ++ dateStr ++ ".pdf"

/-! ## Dated subfolder resolution (graficos.js lines 92-107)

The Object Store (Drive) is modelled as a list of folder records plus a
fresh-id counter.  The query of line 93 asks for a non-trashed folder
named exactly `dateStr` whose parents include `parentId`; `pageSize: 1`
takes the first match, modelled by `List.find?`.  Creation appends a new
non-trashed folder under `parentId` carrying the fresh id. -/

structure Folder where
  fid : Nat
  name : String
  parent : Nat
  isFolder : Bool
  trashed : Bool
deriving Repr, DecidableEq

structure DriveState where
  folders : List Folder
  nextId : Nat
deriving Repr, DecidableEq

/-- The Drive query of line 93: name = dateStr, mimeType folder, parent,
not trashed. -/
def matchesQuery (parentId : Nat) (dateStr : String) (f : Folder) : Bool :=
  f.name == dateStr && f.isFolder && f.parent == parentId && !f.trashed

/-- `ensureDatedSubfolder(parentId, dateStr)`: returns the found folder's
id, or creates one.  Result: (returned id, new drive state, whether a
create call was issued). -/
def ensureDatedSubfolder (s : DriveState) (parentId : Nat) (dateStr : String) :
    Nat × DriveState × Bool :=
  match s.folders.find? (matchesQuery parentId dateStr) with
  | some f => (f.fid, s, false)
  | none =>
    let nf : Folder := ⟨s.nextId, dateStr, parentId, true, false⟩
    (s.nextId, ⟨s.folders ++ [nf], s.nextId + 1⟩, true)

/-! ## getSheetsAndCharts (graficos.js lines 68-90)

The spreadsheet response is a list of raw sheets; each may lack a title
or a sheet id, and each embedded chart may lack a spec title.  The JS
builds a `Map` keyed by sheet title via `Map.set` (later sheets with the
same title overwrite earlier entries); the map is modelled as an
association list with overwrite-or-append `mapSet` and first-match
`mapGet`, which agree with `Map` semantics because `mapSet` keeps keys
unique. -/

structure RawChart where
  chartId : Nat
  specTitle : Option String
deriving Repr, DecidableEq

structure RawSheet where
  title : Option String
  sheetId : Option Nat
  charts : List RawChart
deriving Repr, DecidableEq

structure ChartRef where
  chartId : Nat
  title : String
deriving Repr, DecidableEq

structure SheetInfo where
  sheetId : Option Nat
  title : String
  charts : List ChartRef
deriving Repr, DecidableEq

/-- Line 78: `title.startsWith('Dashboard') && title !== 'GRAFICOS
PERSONALES'` guard, as the positive condition for keeping a sheet. -/
def dashTitleOk (t : String) : Bool :=
  t.startsWith "Dashboard" || t == "GRAFICOS PERSONALES"

def mapSet (m : List (String × SheetInfo)) (k : String) (v : SheetInfo) :
    List (String × SheetInfo) :=
  if m.any (fun p => p.1 == k) then
    m.map (fun p => if p.1 == k then (k, v) else p)
  else m ++ [(k, v)]

def mapGet (m : List (String × SheetInfo)) (k : String) : Option SheetInfo :=
  (m.find? (fun p => p.1 == k)).map (fun p => p.2)

/-- Processing of one sheet in the `forEach` of lines 75-87: skip a
missing or empty title (`if (!title) return`), skip titles failing the
Dashboard/GRAFICOS PERSONALES guard, map the charts (`c.spec?.title ||
''`), and only `set` the entry when the chart list is non-empty
(`if (charts.length)`). -/
def procSheet (m : List (String × SheetInfo)) (sh : RawSheet) :
    List (String × SheetInfo) :=
  match sh.title with
  | none => m
  | some t =>
    if t == "" then m
    else if !dashTitleOk t then m
    else if (sh.charts.map (fun c => ChartRef.mk c.chartId (c.specTitle.getD ""))).isEmpty then m
    else mapSet m t
      (SheetInfo.mk sh.sheetId t
        (sh.charts.map (fun c => ChartRef.mk c.chartId (c.specTitle.getD ""))))

def getSheetsAndCharts (sheets : List RawSheet) : List (String × SheetInfo) :=
  sheets.foldl procSheet []

/-! ## Per-chart task and per-store batch (graficos.js lines 285-310)

Each chart task (the async closure of lines 285-302) performs
insert → export → upload → delete-element inside one `try`; the `catch`
only logs, so the task never rejects.  `total++` runs only when all four
steps succeed — in particular a `deletePageElement` failure lands in the
`catch` even though the PDF was already uploaded.  Whether each remote
step would succeed is an oracle bit. -/

structure ChartOracle where
  insertOk : Bool
  exportOk : Bool
  uploadOk : Bool
  deleteOk : Bool
deriving Repr, DecidableEq

structure TaskTrace where
  success : Bool
  uploaded : Bool
  deleted : Bool
deriving Repr, DecidableEq, Inhabited

/-- The try/catch body of lines 290-301: the first failing step throws to
the catch; `uploaded` records whether `uploadPDF` completed, `success`
whether the task reached `total++`. -/
def runChartTask (o : ChartOracle) : TaskTrace :=
  if !o.insertOk then ⟨false, false, false⟩
  else if !o.exportOk then ⟨false, false, false⟩
  else if !o.uploadOk then ⟨false, false, false⟩
  else if !o.deleteOk then ⟨false, true, false⟩
  else ⟨true, true, true⟩

inductive StoreEvent
  | chartDone (idx : Nat) (success : Bool)
  | destroyAttempt (ok : Bool)
deriving Repr, DecidableEq

def isDestroyEvent : StoreEvent → Bool
  | StoreEvent.destroyAttempt _ => true
  | _ => false

def chartResults (os : List ChartOracle) (k : Nat) : List (Nat × Bool) :=
  match os with
  | [] => []
  | o :: rest => (k, (runChartTask o).success) :: chartResults rest (k + 1)

def chartEvents (os : List ChartOracle) (k : Nat) : List StoreEvent :=
  match os with
  | [] => []
  | o :: rest => StoreEvent.chartDone k (runChartTask o).success :: chartEvents rest (k + 1)

def successCount (os : List ChartOracle) : Nat :=
  match os with
  | [] => 0
  | o :: rest => (if (runChartTask o).success then 1 else 0) + successCount rest

structure StoreRun where
  results : List (Nat × Bool)
  uploads : List Bool
  total : Nat
  events : List StoreEvent
deriving Repr, DecidableEq

/-- One store's batch (lines 285-310): `Promise.all` over the per-chart
tasks — none of which can reject — followed by exactly one attempt to
delete the scratch presentation, itself wrapped in try/catch (lines
304-310), so the destroy outcome only shows in the event log.  Chart
indices are 1-based (`idx = i + 1`). -/
def runStoreBatch (os : List ChartOracle) (destroyOk : Bool) : StoreRun :=
  { results := chartResults os 1,
    uploads := os.map (fun o => (runChartTask o).uploaded),
    total := successCount os,
    events := chartEvents os 1 ++ [StoreEvent.destroyAttempt destroyOk] }

/-! ## The main store loop (graficos.js lines 271-316)

Per store the loop: looks the sheet up (`continue` when absent, line
273), `continue`s on an empty chart list (line 275), resolves the dated
folder inside try/catch (`continue` on failure, lines 277-279), then
calls `createTempPresentation` (line 283) — NOT wrapped in any
try/catch, so a failure there propagates out of `main` to
`main().catch` (line 316), which exits the process.  This is modelled by
`Except`: a session-open failure aborts the whole fold. -/

structure StoreOracle where
  name : String
  sheetFound : Bool
  charts : List ChartOracle
  folderOk : Bool
  sessionOk : Bool
  destroyOk : Bool
deriving Repr

inductive StoreOutcome
  | skippedNoSheet
  | skippedNoCharts
  | skippedBadFolder
  | processed (r : StoreRun)
deriving Repr, DecidableEq

def runMain : List StoreOracle → Except String (List (String × StoreOutcome))
  | [] => Except.ok []
  | s :: rest =>
    if s.sheetFound = false then
      (runMain rest).map (fun l => (s.name, StoreOutcome.skippedNoSheet) :: l)
    else if s.charts.isEmpty then
      (runMain rest).map (fun l => (s.name, StoreOutcome.skippedNoCharts) :: l)
    else if s.folderOk = false then
      (runMain rest).map (fun l => (s.name, StoreOutcome.skippedBadFolder) :: l)
    else if s.sessionOk = false then
      Except.error ("createTempPresentation failed for " ++ s.name)
    else
      (runMain rest).map
        (fun l => (s.name, StoreOutcome.processed (runStoreBatch s.charts s.destroyOk)) :: l)

def exceptIsOk : Except String (List (String × StoreOutcome)) → Bool
  | Except.ok _ => true
  | Except.error _ => false

/-! ## Scheduling model for the shared-slide batch (graficos.js 48, 285-302)

Within one store, every chart task runs the same sequence of awaited
remote calls on the SAME `presId`/`slideId`:
insert (`createSheetsChart` batchUpdate) → measure (`presentations.get`)
→ transform (`updatePageElementTransform` batchUpdate) → export
(`files.export` of the whole presentation) → upload (`files.create`) →
delete-element (`deleteObject` batchUpdate).  The tasks are admitted by
`pLimit(CONCURRENCY)` with `CONCURRENCY = 2` (line 48) and the task body
holds no lock, so between any two awaits the event loop may run another
admitted task.  A schedule is a list of (task, step) pairs; it is valid
when each task's steps appear in program order and at no point more than
`C` tasks are mid-flight (between their first and last step). -/

inductive StepKind
  | insertChart
  | measureElem
  | applyTransform
  | exportPdf
  | uploadPdf
  | deleteElem
deriving Repr, DecidableEq, BEq, Inhabited

structure SchedStep where
  task : Nat
  kind : StepKind
deriving Repr, DecidableEq, Inhabited

/-- The awaited remote calls of one chart task, in program order
(lines 291-294, expanding `insertChartAndFit` per lines 134-213). -/
def taskProgram : List StepKind :=
  [StepKind.insertChart, StepKind.measureElem, StepKind.applyTransform,
   StepKind.exportPdf, StepKind.uploadPdf, StepKind.deleteElem]

def projTask (t : Nat) (sch : List SchedStep) : List StepKind :=
  (sch.filter (fun s => s.task == t)).map (fun s => s.kind)

/-- Task `t` is mid-flight at position `i`: it has a step at or before
`i` and a step at or after `i`. -/
def activeAt (sch : List SchedStep) (i : Nat) (t : Nat) : Bool :=
  ((sch.take (i + 1)).any (fun s => s.task == t)) &&
  ((sch.drop i).any (fun s => s.task == t))

/-- A schedule the JS event loop can produce for task set `tasks` under
`pLimit C`: per-task program order is preserved, only listed tasks step,
and at most `C` tasks are mid-flight at any position.  This is the
complete set of constraints the code imposes — the task bodies share no
lock or other ordering mechanism. -/
def validSchedule (C : Nat) (tasks : List Nat) (sch : List SchedStep) : Bool :=
  tasks.all (fun t => projTask t sch == taskProgram) &&
  sch.all (fun s => tasks.contains s.task) &&
  (List.range sch.length).all
    (fun i => decide ((tasks.filter (fun t => activeAt sch i t)).length ≤ C))

/-- Some step of task `u` occurs strictly between two steps of task `t`:
the two tasks' sequences interleave. -/
def interleavedOn (sch : List SchedStep) (t u : Nat) : Bool :=
  (List.range sch.length).any (fun i =>
    (List.range sch.length).any (fun j =>
      (List.range sch.length).any (fun k =>
        decide (i < j) && decide (j < k) &&
        (sch.getD i default).task == t &&
        (sch.getD j default).task == u &&
        (sch.getD k default).task == t)))

/-- Contents of the shared slide after running a schedule prefix: insert
adds the task's element, delete-element removes it; every other step
leaves the page unchanged. -/
def pageAfter (sch : List SchedStep) : List Nat :=
  sch.foldl
    (fun pg s =>
      match s.kind with
      | StepKind.insertChart => pg ++ [s.task]
      | StepKind.deleteElem => pg.erase s.task
      | _ => pg)
    []

/-- The slide contents at the moment task `t` performs its export (the
whole presentation is exported, line 292 / lines 218-232). -/
def pageAtExportOf (sch : List SchedStep) (t : Nat) : List Nat :=
  pageAfter (sch.takeWhile
    (fun s => !(s.task == t && s.kind == StepKind.exportPdf)))

/-- A schedule of two chart tasks on the same store that `pLimit 2`
admits: task 1 inserts its chart while task 0 is still mid-sequence, so
task 0's export sees both elements on the shared slide. -/
def badSchedule : List SchedStep :=
  [⟨0, StepKind.insertChart⟩, ⟨0, StepKind.measureElem⟩,
   ⟨0, StepKind.applyTransform⟩, ⟨1, StepKind.insertChart⟩,
   ⟨0, StepKind.exportPdf⟩, ⟨0, StepKind.uploadPdf⟩,
   ⟨0, StepKind.deleteElem⟩, ⟨1, StepKind.measureElem⟩,
   ⟨1, StepKind.applyTransform⟩, ⟨1, StepKind.exportPdf⟩,
   ⟨1, StepKind.uploadPdf⟩, ⟨1, StepKind.deleteElem⟩]

end CosmoSave

/-! ## Helper lemmas -/

namespace CosmoSave

theorem sanitizeTitle_no_banned (s : String) :
    ∀ c ∈ (sanitizeTitle s).data, c ∉ bannedChars := by
  intro c hc
  have hc' : c ∈ s.data.map sanitizeChar := List.mem_of_mem_take hc
  rcases List.mem_map.mp hc' with ⟨a, _, rfl⟩
  by_cases h : a ∈ bannedChars
  · have e : sanitizeChar a = '_' := by simp [sanitizeChar, h]
    rw [e]
    decide
  · have e : sanitizeChar a = a := by simp [sanitizeChar, h]
    rw [e]
    exact h

theorem sanitizeTitle_len (s : String) : (sanitizeTitle s).length ≤ 80 := by
  have e : (sanitizeTitle s).length = ((s.data.map sanitizeChar).take 80).length := rfl
  rw [e, List.length_take]
  exact min_le_left _ _

theorem find_append_of_none {α : Type} (p : α → Bool) (l1 l2 : List α)
    (h : l1.find? p = none) : (l1 ++ l2).find? p = l2.find? p := by
  induction l1 with
  | nil => simp
  | cons a t ih =>
    cases hpa : p a with
    | true => simp [List.find?, hpa] at h
    | false =>
      simp only [List.cons_append, List.find?, hpa] at h ⊢
      exact ih h

theorem mapSet_forall {Q : String × SheetInfo → Prop} {m : List (String × SheetInfo)}
    {k : String} {v : SheetInfo}
    (hm : ∀ p ∈ m, Q p) (hv : Q (k, v)) : ∀ p ∈ mapSet m k v, Q p := by
  intro p hp
  unfold mapSet at hp
  by_cases hc : (m.any (fun q => q.1 == k)) = true
  · rw [if_pos hc] at hp
    rcases List.mem_map.mp hp with ⟨q, hq, rfl⟩
    by_cases h : (q.1 == k) = true
    · simpa [h] using hv
    · simpa [h] using hm q hq
  · rw [if_neg hc] at hp
    rcases List.mem_append.mp hp with h | h
    · exact hm p h
    · rw [List.mem_singleton] at h
      subst h
      exact hv

theorem procSheet_entryOk (m : List (String × SheetInfo)) (sh : RawSheet)
    (hm : ∀ p ∈ m, dashTitleOk p.1 = true ∧ p.2.charts ≠ []) :
    ∀ p ∈ procSheet m sh, dashTitleOk p.1 = true ∧ p.2.charts ≠ [] := by
  intro p hp
  unfold procSheet at hp
  split at hp
  · exact hm p hp
  · split at hp
    · exact hm p hp
    · split at hp
      · exact hm p hp
      · split at hp
        · exact hm p hp
        · next t _ _ hd hemp =>
          refine mapSet_forall hm ⟨?_, ?_⟩ p hp
          · simpa using hd
          · intro hnil
            simp at hnil
            apply hemp
            simp [hnil]

theorem procSheet_no_key (m : List (String × SheetInfo)) (sh : RawSheet) (t : String)
    (hsh : sh.title = some t → sh.charts = [])
    (hm : ∀ p ∈ m, p.1 ≠ t) : ∀ p ∈ procSheet m sh, p.1 ≠ t := by
  intro p hp
  unfold procSheet at hp
  split at hp
  · exact hm p hp
  · next u heq =>
    split at hp
    · exact hm p hp
    · split at hp
      · exact hm p hp
      · split at hp
        · exact hm p hp
        · next hemp =>
          have hut : u ≠ t := by
            intro he
            subst he
            have hcz : sh.charts = [] := hsh heq
            apply hemp
            simp [hcz]
          exact mapSet_forall hm hut p hp

theorem foldl_procSheet_forall {Q : String × SheetInfo → Prop} :
    ∀ (sheets : List RawSheet),
      (∀ sh ∈ sheets, ∀ m : List (String × SheetInfo),
        (∀ p ∈ m, Q p) → ∀ p ∈ procSheet m sh, Q p) →
      ∀ m : List (String × SheetInfo),
        (∀ p ∈ m, Q p) → ∀ p ∈ sheets.foldl procSheet m, Q p := by
  intro sheets
  induction sheets with
  | nil =>
    intro _ m hm
    simpa using hm
  | cons sh rest ih =>
    intro hQ m hm
    exact ih (fun s hs => hQ s (List.mem_cons_of_mem _ hs)) (procSheet m sh)
      (hQ sh (List.mem_cons_self _ _) m hm)

theorem mapGet_none_of_no_key (m : List (String × SheetInfo)) (t : String)
    (hm : ∀ p ∈ m, p.1 ≠ t) : mapGet m t = none := by
  unfold mapGet
  have hfin : m.find? (fun p => p.1 == t) = none := by
    rw [List.find?_eq_none]
    intro p hp
    simpa using hm p hp
  rw [hfin]
  rfl

end CosmoSave

/-! ## Claim theorems -/

namespace CosmoSave

/-- Claim C1 (refuted; the code is at fault): the claim says that in the
reuse-one-page strategy one chart's insert→measure→transform→export→cleanup
sequence never interleaves with another chart's sequence on the same page,
with effective render+export concurrency 1 per store.  The code imposes
only `pLimit(CONCURRENCY = 2)` and per-task program order, with no
per-store serialization; this theorem exhibits a concrete schedule that
those constraints admit (`validSchedule 2 [0, 1] badSchedule = true`) in
which task 1's insert falls strictly between steps of task 0
(`interleavedOn`), so that task 0's export of the shared single-slide
presentation takes place while BOTH chart elements sit on the slide
(`pageAtExportOf badSchedule 0 = [0, 1]`) — the exported PDF would show
two charts, contradicting the serialization the spec requires. -/
theorem c1_shared_page_interleaving :
    validSchedule 2 [0, 1] badSchedule = true ∧
    interleavedOn badSchedule 0 1 = true ∧
    pageAtExportOf badSchedule 0 = [0, 1] := by
  refine ⟨?_, ?_, ?_⟩ <;> decide

/-- Claim C2: for an operation failing on every invocation, `withRetry`
invokes it exactly 5 times; it sleeps before each retry for
`wait + jitter` with jitter below 300 and wait running through
700, 1400, 2800, 5600 (non-decreasing, each next wait `min (2*wait) 8000`);
after the 5th failure it raises an error carrying the label and the last
underlying message. -/
theorem c2_withRetry_exhausts_five_attempts {α : Type} (tag : String)
    (op : Nat → Except String α) (msg : Nat → String) (jitter : Nat → Nat)
    (hop : ∀ i, op i = Except.error (msg i)) (hj : ∀ i, jitter i < 300) :
    (withRetry tag op jitter).calls = 5 ∧
    (withRetry tag op jitter).result = Except.error (tag ++ ": " ++ msg 5) ∧
    (withRetry tag op jitter).sleeps =
      [700 + jitter 1, 1400 + jitter 2, 2800 + jitter 3, 5600 + jitter 4] ∧
    List.Forall₂ (fun b s => b ≤ s ∧ s < b + 300) [700, 1400, 2800, 5600]
      (withRetry tag op jitter).sleeps ∧
    1400 = min (700 * 2) 8000 ∧ 2800 = min (1400 * 2) 8000 ∧
    5600 = min (2800 * 2) 8000 ∧ List.Chain' (· ≤ ·) ([700, 1400, 2800, 5600] : List Nat) := by
  have e : withRetry tag op jitter =
      ⟨Except.error (tag ++ ": " ++ msg 5), 5,
       [700 + jitter 1, 1400 + jitter 2, 2800 + jitter 3, 5600 + jitter 4]⟩ := by
    simp [withRetry, MAX_RETRIES, retryLoop, hop]
  rw [e]
  have j1 := hj 1
  have j2 := hj 2
  have j3 := hj 3
  have j4 := hj 4
  refine ⟨rfl, rfl, rfl, ?_, by norm_num, by norm_num, by norm_num,
    by norm_num [List.chain'_cons, List.chain'_singleton]⟩
  refine List.Forall₂.cons (by omega) ?_
  refine List.Forall₂.cons (by omega) ?_
  refine List.Forall₂.cons (by omega) ?_
  exact List.Forall₂.cons (by omega) List.Forall₂.nil

/-- Witness for C2 at a concrete always-failing operation with zero
jitter. -/
theorem c2_withRetry_witness :
    (withRetry "slides.get" (fun _ => (Except.error "quota" : Except String Unit))
      (fun _ => 0)).calls = 5 ∧
    (withRetry "slides.get" (fun _ => (Except.error "quota" : Except String Unit))
      (fun _ => 0)).result = Except.error "slides.get: quota" ∧
    (withRetry "slides.get" (fun _ => (Except.error "quota" : Except String Unit))
      (fun _ => 0)).sleeps = [700, 1400, 2800, 5600] := by
  have h := c2_withRetry_exhausts_five_attempts "slides.get"
    (fun _ => (Except.error "quota" : Except String Unit)) (fun _ => "quota") (fun _ => 0)
    (fun _ => rfl) (fun _ => by norm_num)
  refine ⟨h.1, ?_, ?_⟩
  · rw [h.2.1]
    rfl
  · rw [h.2.2.1]
    rfl

/-- Claim C3: in a store batch of three charts where chart 2's task fails
permanently and charts 1 and 3 succeed, charts 1 and 3 are recorded as
successes (total = 2), no sibling task is aborted (all three results are
present), and the scratch presentation is destroyed exactly once, after
all chart tasks finish (the single destroy event is last). -/
theorem c3_fault_isolation (o1 o2 o3 : ChartOracle) (destroyOk : Bool)
    (h1 : (runChartTask o1).success = true)
    (h2 : (runChartTask o2).success = false)
    (h3 : (runChartTask o3).success = true) :
    (runStoreBatch [o1, o2, o3] destroyOk).results = [(1, true), (2, false), (3, true)] ∧
    (runStoreBatch [o1, o2, o3] destroyOk).total = 2 ∧
    (runStoreBatch [o1, o2, o3] destroyOk).events =
      [StoreEvent.chartDone 1 true, StoreEvent.chartDone 2 false,
       StoreEvent.chartDone 3 true, StoreEvent.destroyAttempt destroyOk] ∧
    ((runStoreBatch [o1, o2, o3] destroyOk).events.filter isDestroyEvent).length = 1 := by
  refine ⟨?_, ?_, ?_, ?_⟩ <;>
    simp [runStoreBatch, chartResults, chartEvents, successCount, h1, h2, h3,
      isDestroyEvent, List.filter]

/-- Witness for C3: chart 2's export step fails, charts 1 and 3 are fully
healthy. -/
theorem c3_fault_isolation_witness :
    (runStoreBatch [⟨true, true, true, true⟩, ⟨true, false, true, true⟩,
      ⟨true, true, true, true⟩] true).results = [(1, true), (2, false), (3, true)] ∧
    (runStoreBatch [⟨true, true, true, true⟩, ⟨true, false, true, true⟩,
      ⟨true, true, true, true⟩] true).total = 2 := by
  have h := c3_fault_isolation ⟨true, true, true, true⟩ ⟨true, false, true, true⟩
    ⟨true, true, true, true⟩ true rfl rfl rfl
  exact ⟨h.1, h.2.1⟩

/-- Counterexample to claim C4: with two stores where the first store's
`createTempPresentation` fails (after retries) and the second store is
fully healthy, the whole run aborts with the propagated error — the
second store is never processed, contradicting "causes only that store to
be skipped, and the run continues processing the remaining stores". -/
theorem c4_session_open_aborts_run_example :
    runMain [⟨"BAD", true, [⟨true, true, true, true⟩], true, false, true⟩,
             ⟨"GOOD", true, [⟨true, true, true, true⟩], true, true, true⟩] =
      Except.error "createTempPresentation failed for BAD" ∧
    exceptIsOk (runMain [⟨"BAD", true, [⟨true, true, true, true⟩], true, false, true⟩,
             ⟨"GOOD", true, [⟨true, true, true, true⟩], true, true, true⟩]) = false := by
  exact ⟨rfl, rfl⟩

/-- Claim C4 as amended: a session-open (`createTempPresentation`)
failure is NOT store-scoped — it propagates out of the store loop and
aborts the entire run (the remaining stores are not processed), because
line 283 of graficos.js is outside any try/catch; by contrast a
dated-folder resolution failure is caught and only skips its store. -/
theorem c4_session_open_amended (s : StoreOracle) (rest : List StoreOracle)
    (h1 : s.sheetFound = true) (h2 : s.charts.isEmpty = false)
    (h3 : s.folderOk = true) (h4 : s.sessionOk = false) :
    runMain (s :: rest) = Except.error ("createTempPresentation failed for " ++ s.name) ∧
    (∀ s2 : StoreOracle, s2.sheetFound = true → s2.charts.isEmpty = false →
      s2.folderOk = false →
      runMain (s2 :: rest) =
        (runMain rest).map (fun l => (s2.name, StoreOutcome.skippedBadFolder) :: l)) := by
  constructor
  · simp [runMain, h1, h2, h3, h4]
  · intro s2 g1 g2 g3
    simp [runMain, g1, g2, g3]

/-- Witness for the amended C4 at a concrete store. -/
theorem c4_session_open_amended_witness :
    runMain [⟨"BAD", true, [⟨true, true, true, true⟩], true, false, true⟩] =
      Except.error "createTempPresentation failed for BAD" := by
  have h := c4_session_open_amended
    ⟨"BAD", true, [⟨true, true, true, true⟩], true, false, true⟩ [] rfl rfl rfl rfl
  rw [h.1]
  rfl

/-- Claim C5: for positive inputs the fit transform scales independently
per axis — `scaleX = (pgW - 2m)/elemW`, `scaleY = (pgH - 2m)/elemH` — so
the scaled element exactly fills the target box
(`elemW·scaleX = pgW - 2m`, `elemH·scaleY = pgH - 2m`) and is centered
(`translateX = (pgW - elemW·scaleX)/2`, symmetrically for Y). -/
theorem c5_fit_transform_exact_fill (elemW elemH pgW pgH margin : ℚ)
    (hW : 0 < elemW) (hH : 0 < elemH) (_hpW : 0 < pgW) (_hpH : 0 < pgH) (_hm : 0 < margin) :
    (computeFit elemW elemH pgW pgH margin).scaleX = (pgW - 2 * margin) / elemW ∧
    (computeFit elemW elemH pgW pgH margin).scaleY = (pgH - 2 * margin) / elemH ∧
    elemW * (computeFit elemW elemH pgW pgH margin).scaleX = pgW - 2 * margin ∧
    elemH * (computeFit elemW elemH pgW pgH margin).scaleY = pgH - 2 * margin ∧
    (computeFit elemW elemH pgW pgH margin).translateX =
      (pgW - elemW * (computeFit elemW elemH pgW pgH margin).scaleX) / 2 ∧
    (computeFit elemW elemH pgW pgH margin).translateY =
      (pgH - elemH * (computeFit elemW elemH pgW pgH margin).scaleY) / 2 := by
  have hW0 : elemW ≠ 0 := ne_of_gt hW
  have hH0 : elemH ≠ 0 := ne_of_gt hH
  refine ⟨rfl, rfl, ?_, ?_, rfl, rfl⟩ <;> simp [computeFit] <;> field_simp

/-- Witness for C5 at element 4×2 on a 960×540 page with margin 10. -/
theorem c5_fit_transform_witness :
    (computeFit 4 2 960 540 10).scaleX = 235 ∧
    4 * (computeFit 4 2 960 540 10).scaleX = 940 ∧
    2 * (computeFit 4 2 960 540 10).scaleY = 520 := by
  have h := c5_fit_transform_exact_fill 4 2 960 540 10 (by norm_num) (by norm_num)
    (by norm_num) (by norm_num) (by norm_num)
  refine ⟨?_, ?_, ?_⟩
  · rw [h.1]
    norm_num
  · rw [h.2.2.1]
    norm_num
  · rw [h.2.2.2.1]
    norm_num

/-- Claim C6: two sequential single-writer calls of `ensureDatedSubfolder`
with the same `(parentId, dateStr)` return the same folder id and issue at
most one create between them; when a matching non-trashed folder already
exists, neither call creates. -/
theorem c6_ensureDatedSubfolder_idempotent (s : DriveState) (parentId : Nat) (dateStr : String) :
    (ensureDatedSubfolder s parentId dateStr).1 =
      (ensureDatedSubfolder (ensureDatedSubfolder s parentId dateStr).2.1 parentId dateStr).1 ∧
    ((if (ensureDatedSubfolder s parentId dateStr).2.2 then 1 else 0) +
      (if (ensureDatedSubfolder (ensureDatedSubfolder s parentId dateStr).2.1
            parentId dateStr).2.2 then 1 else 0)) ≤ 1 ∧
    (s.folders.any (matchesQuery parentId dateStr) = true →
      (ensureDatedSubfolder s parentId dateStr).2.2 = false ∧
      (ensureDatedSubfolder (ensureDatedSubfolder s parentId dateStr).2.1
        parentId dateStr).2.2 = false) := by
  cases hfind : s.folders.find? (matchesQuery parentId dateStr) with
  | some f =>
    simp [ensureDatedSubfolder, hfind]
  | none =>
    have hq : matchesQuery parentId dateStr ⟨s.nextId, dateStr, parentId, true, false⟩ = true := by
      simp [matchesQuery]
    have h2 : (s.folders ++ [(⟨s.nextId, dateStr, parentId, true, false⟩ : Folder)]).find?
        (matchesQuery parentId dateStr) = some ⟨s.nextId, dateStr, parentId, true, false⟩ := by
      rw [find_append_of_none _ _ _ hfind]
      simp [List.find?, hq]
    refine ⟨?_, ?_, ?_⟩
    · simp [ensureDatedSubfolder, hfind, h2]
    · simp [ensureDatedSubfolder, hfind, h2]
    · intro hany
      exfalso
      rcases List.any_eq_true.mp hany with ⟨f, hf, hpf⟩
      exact (List.find?_eq_none.mp hfind f hf) hpf

/-- Witness for C6 on a drive state already holding the dated folder. -/
theorem c6_ensureDatedSubfolder_witness :
    (ensureDatedSubfolder ⟨[⟨7, "2024-01-01", 3, true, false⟩], 10⟩ 3 "2024-01-01").2.2 = false ∧
    (ensureDatedSubfolder (ensureDatedSubfolder ⟨[⟨7, "2024-01-01", 3, true, false⟩], 10⟩
        3 "2024-01-01").2.1 3 "2024-01-01").2.2 = false ∧
    (ensureDatedSubfolder ⟨[⟨7, "2024-01-01", 3, true, false⟩], 10⟩ 3 "2024-01-01").1 =
      (ensureDatedSubfolder (ensureDatedSubfolder ⟨[⟨7, "2024-01-01", 3, true, false⟩], 10⟩
        3 "2024-01-01").2.1 3 "2024-01-01").1 := by
  have h := c6_ensureDatedSubfolder_idempotent ⟨[⟨7, "2024-01-01", 3, true, false⟩], 10⟩
    3 "2024-01-01"
  have hany : (⟨[⟨7, "2024-01-01", 3, true, false⟩], 10⟩ : DriveState).folders.any
      (matchesQuery 3 "2024-01-01") = true := by decide
  exact ⟨(h.2.2 hany).1, (h.2.2 hany).2, h.1⟩

/-- Claim C7: the destination filename is
`{store}__{title}__{dateKey}.pdf` where the title segment contains none of
the nine banned characters and is at most 80 characters, an empty chart
title is replaced by `Grafico_` plus the 1-based index, and the ARENAL
scenario gives `ARENAL__Sales__2024-01-01.pdf` and
`ARENAL__Grafico_2__2024-01-01.pdf`. -/
theorem c7_filename_sanitization (tienda rawTitle : String) (idx : Nat) (dateStr : String) :
    (∀ c ∈ (chartFileTitle rawTitle idx).data, c ∉ bannedChars) ∧
    (chartFileTitle rawTitle idx).length ≤ 80 ∧
    chartFileName tienda rawTitle idx dateStr =
      tienda ++ "__" ++ chartFileTitle rawTitle idx ++ "__" ++ dateStr ++ ".pdf" ∧
    chartFileTitle "" idx = sanitizeTitle ("Grafico_" ++ toString idx) ∧
    chartFileName "ARENAL" "Sales" 1 "2024-01-01" = "ARENAL__Sales__2024-01-01.pdf" ∧
    chartFileName "ARENAL" "" 2 "2024-01-01" = "ARENAL__Grafico_2__2024-01-01.pdf" := by
  refine ⟨sanitizeTitle_no_banned _, sanitizeTitle_len _, rfl, by simp [chartFileTitle],
    by decide, by decide⟩

/-- Witness for C7 at a concrete banned-character title and the ARENAL
empty-title scenario. -/
theorem c7_filename_sanitization_witness :
    chartFileName "ARENAL" "" 2 "2024-01-01" = "ARENAL__Grafico_2__2024-01-01.pdf" ∧
    (chartFileTitle "Ventas/2024:Q1*" 1).length ≤ 80 := by
  have h := c7_filename_sanitization "ARENAL" "Ventas/2024:Q1*" 1 "2024-01-01"
  exact ⟨h.2.2.2.2.2, h.2.1⟩

/-- Counterexample to claim C8: when `deletePageElement` fails after the
chart's PDF was exported and uploaded, the chart-level catch records the
chart as FAILED — it is not counted in the total — contradicting "the
chart whose output was already produced is still recorded as a success". -/
theorem c8_cleanup_failure_example :
    (runChartTask ⟨true, true, true, false⟩).uploaded = true ∧
    (runChartTask ⟨true, true, true, false⟩).success = false ∧
    (runStoreBatch [⟨true, true, true, false⟩] true).total = 0 := by
  exact ⟨rfl, rfl, rfl⟩

/-- Claim C8 as amended: a `deletePageElement` failure after a successful
export and upload is caught by the chart-level catch and recorded as a
chart failure (the uploaded PDF survives but the chart is not counted in
the total); the run continues — later stores are still processed and the
destroy is still attempted once.  Only the scratch-presentation destroy
failure behaves as the claim said: it is a warning that affects neither
the results nor the totals. -/
theorem c8_cleanup_error_amended (o : ChartOracle)
    (hi : o.insertOk = true) (he : o.exportOk = true)
    (hu : o.uploadOk = true) (hd : o.deleteOk = false) :
    (runChartTask o).uploaded = true ∧
    (runChartTask o).success = false ∧
    (∀ os : List ChartOracle, (runStoreBatch os false).total = (runStoreBatch os true).total) ∧
    (∀ (nm : String) (rest : List StoreOracle),
      runMain (⟨nm, true, [o], true, true, false⟩ :: rest) =
        (runMain rest).map
          (fun l => (nm, StoreOutcome.processed (runStoreBatch [o] false)) :: l)) ∧
    (runStoreBatch [o] false).events =
      [StoreEvent.chartDone 1 false, StoreEvent.destroyAttempt false] := by
  refine ⟨?_, ?_, fun os => rfl, ?_, ?_⟩
  · simp [runChartTask, hi, he, hu, hd]
  · simp [runChartTask, hi, he, hu, hd]
  · intro nm rest
    simp [runMain, List.isEmpty]
  · simp [runStoreBatch, chartEvents, runChartTask, hi, he, hu, hd]

/-- Witness for the amended C8 at the concrete delete-failing oracle. -/
theorem c8_cleanup_error_amended_witness :
    (runChartTask ⟨true, true, true, false⟩).uploaded = true ∧
    (runChartTask ⟨true, true, true, false⟩).success = false ∧
    (runStoreBatch [⟨true, true, true, false⟩] false).events =
      [StoreEvent.chartDone 1 false, StoreEvent.destroyAttempt false] := by
  have h := c8_cleanup_error_amended ⟨true, true, true, false⟩ rfl rfl rfl rfl
  exact ⟨h.1, h.2.1, h.2.2.2.2⟩

/-- Counterexample to claim C9: a Presentation Service response reporting
a negative measured width passes through `||` untouched, so the divisor is
-1 — NOT strictly positive as the claim states (the resulting scaleX is
-960). -/
theorem c9_negative_magnitude_example :
    jsOr (some (-1)) 100 = -1 ∧
    ¬ (0 < jsOr (some (-1)) 100) ∧
    (fitFromResponse (some (-1)) (some 50) none none).scaleX = -960 := by
  refine ⟨?_, ?_, ?_⟩ <;> norm_num [jsOr, fitFromResponse, computeFit]

/-- Claim C9 as amended: the `|| default` fallbacks (100 for element
dimensions, 960×540 for the page) make every divisor NONZERO — a missing
or zero magnitude is replaced — so no division by zero is reachable and
the scale equations hold exactly; the divisors are moreover strictly
positive whenever the service reports non-negative magnitudes, but a
negative magnitude would pass through. -/
theorem c9_fit_divisors_nonzero (eW eH pW pH : Option ℚ) :
    jsOr eW 100 ≠ 0 ∧ jsOr eH 100 ≠ 0 ∧ jsOr pW 960 ≠ 0 ∧ jsOr pH 540 ≠ 0 ∧
    jsOr eW 100 * (fitFromResponse eW eH pW pH).scaleX = jsOr pW 960 ∧
    jsOr eH 100 * (fitFromResponse eW eH pW pH).scaleY = jsOr pH 540 ∧
    ((∀ v, eW = some v → 0 ≤ v) → 0 < jsOr eW 100) ∧
    ((∀ v, eH = some v → 0 ≤ v) → 0 < jsOr eH 100) := by
  have key : ∀ (x : Option ℚ) (d : ℚ), d ≠ 0 → jsOr x d ≠ 0 := by
    intro x d hd
    cases x with
    | none => simpa [jsOr] using hd
    | some v =>
      by_cases hv : v = 0
      · simpa [jsOr, hv] using hd
      · simp [jsOr, hv]
  have pos : ∀ (x : Option ℚ) (d : ℚ), 0 < d → (∀ v, x = some v → 0 ≤ v) → 0 < jsOr x d := by
    intro x d hd hx
    cases x with
    | none => simpa [jsOr] using hd
    | some v =>
      by_cases hv : v = 0
      · simpa [jsOr, hv] using hd
      · have h0 : 0 ≤ v := hx v rfl
        have h1 : 0 < v := lt_of_le_of_ne h0 (Ne.symm hv)
        simpa [jsOr, hv] using h1
  have kW := key eW 100 (by norm_num)
  have kH := key eH 100 (by norm_num)
  refine ⟨kW, kH, key pW 960 (by norm_num), key pH 540 (by norm_num), ?_, ?_,
    pos eW 100 (by norm_num), pos eH 100 (by norm_num)⟩
  · simp only [fitFromResponse, computeFit]
    field_simp
  · simp only [fitFromResponse, computeFit]
    field_simp

/-- Witness for the amended C9 at an all-missing response. -/
theorem c9_fit_divisors_nonzero_witness :
    jsOr none 100 ≠ 0 ∧ (0 : ℚ) < jsOr none 100 := by
  have h := c9_fit_divisors_nonzero none none none none
  exact ⟨h.1, h.2.2.2.2.2.2.1 (fun v hv => by cases hv)⟩

/-- Claim C10: every entry of the map built by `getSheetsAndCharts` has a
title accepted by the Dashboard/GRAFICOS PERSONALES guard and a non-empty
chart list; hence a lookup hit always has charts (the orchestrator's
zero-charts diagnostic branch is unreachable) and a store whose sheets all
have zero embedded charts misses the lookup entirely (the sheet-not-found
branch is taken). -/
theorem c10_sheets_map_invariant (sheets : List RawSheet) :
    (∀ p ∈ getSheetsAndCharts sheets, dashTitleOk p.1 = true ∧ p.2.charts ≠ []) ∧
    (∀ (t : String) (v : SheetInfo),
      mapGet (getSheetsAndCharts sheets) t = some v → v.charts ≠ []) ∧
    (∀ t : String, (∀ sh ∈ sheets, sh.title = some t → sh.charts = []) →
      mapGet (getSheetsAndCharts sheets) t = none) := by
  have inv := foldl_procSheet_forall sheets
    (fun sh _ m hm => procSheet_entryOk m sh hm) [] (by simp)
  refine ⟨inv, ?_, ?_⟩
  · intro t v hv
    unfold mapGet at hv
    cases hf : (getSheetsAndCharts sheets).find? (fun p => p.1 == t) with
    | none =>
      rw [hf] at hv
      cases hv
    | some q =>
      rw [hf] at hv
      have hq : q ∈ getSheetsAndCharts sheets := List.mem_of_find?_eq_some hf
      have hqv : q.2 = v := by
        simpa using hv
      rw [← hqv]
      exact (inv q hq).2
  · intro t ht
    refine mapGet_none_of_no_key _ t ?_
    exact foldl_procSheet_forall sheets
      (fun sh hs m hm => procSheet_no_key m sh t (ht sh hs) hm) [] (by simp)

/-- Witness for C10: a Dashboard-titled sheet with zero charts is absent
from the map. -/
theorem c10_sheets_map_invariant_witness :
    mapGet (getSheetsAndCharts
      [⟨some "Dashboard X", some 1, []⟩,
       ⟨some "Dashboard", some 2, [⟨5, some "Sales"⟩]⟩]) "Dashboard X" = none := by
  have h := c10_sheets_map_invariant
    [⟨some "Dashboard X", some 1, []⟩, ⟨some "Dashboard", some 2, [⟨5, some "Sales"⟩]⟩]
  exact h.2.2 "Dashboard X" (by decide)

end CosmoSave
